import Mathlib

/-!
Verification development for the Lunu-Rise front end.

The definitions below are a shallow embedding of the client-side logic of
the repository: the simulated payment modal (PaymentModalFake.tsx), the
Wallet withdraw handler (Wallet.tsx), the two registration variants
(Register.tsx and the email-based copy), the Dashboard investment loader,
and the Transactions page filtering and CSV export.  Remote-store writes
are modelled by explicit state passing over a Store value; document
creation appends to a list and draws a fresh identifier from a counter.
JS strings are Lean String values, JS numbers that are only copied are
carried as Int, cent amounts produced by the handlers are Int, and the
Firestore timestamp objects are a record holding their seconds field.
-/

namespace LunoRise

/-! ## Generic string helpers shared by several pages -/

/-- Result of the JS replace of every whitespace character with the empty
string, as in value.replace with the whitespace class. -/
def stripWhitespace (s : String) : String :=
  String.mk (s.data.filter (fun c => !c.isWhitespace))

/-- Result of the JS replace of every non-digit character with the empty
string, as in value.replace with the non-digit class. -/
def onlyDigits (s : String) : String :=
  String.mk (s.data.filter Char.isDigit)

/-- Number of decimal digit characters in a string. -/
def digitCount (s : String) : Nat :=
  (s.data.filter Char.isDigit).length

/-- List-level JS trim: drop leading and trailing whitespace characters. -/
def jsTrim (s : String) : String :=
  String.mk (((s.data.dropWhile Char.isWhitespace).reverse.dropWhile Char.isWhitespace).reverse)

/-- Decimal digit characters are never whitespace characters. -/
theorem digit_not_whitespace (c : Char) (h : c.isDigit = true) : c.isWhitespace = false := by
  by_contra hw
  simp only [Bool.not_eq_false, Char.isWhitespace, Bool.or_eq_true, decide_eq_true_eq] at hw
  rcases hw with ((h1 | h2) | h3) | h4 <;> subst_vars <;> exact absurd h (by decide)

/-! ## Payment modal (PaymentModalFake.tsx) -/

/-- Fuel-driven regrouping of a character list into blocks of four
separated by single spaces.  This is the composite effect of the JS
replace of every four-character group by the group plus one space,
followed by trim, in the helper formatCardNumber. -/
def cardGroups : Nat → List Char → List Char
  | 0, cs => cs
  | fuel + 1, cs =>
    if cs.length ≤ 4 then cs
    else cs.take 4 ++ ' ' :: cardGroups fuel (cs.drop 4)

/-- The helper formatCardNumber of the payment modal: keep the first 16
digit characters and display them in groups of four. -/
def formatCardNumber (value : String) : String :=
  let digits := (onlyDigits value).data.take 16
  String.mk (cardGroups digits.length digits)

/-- The helper formatExpiry of the payment modal: keep the first four
digit characters and put a slash after the first two. -/
def formatExpiry (value : String) : String :=
  let digits := (onlyDigits value).data.take 4
  if digits.length ≤ 2 then String.mk digits
  else String.mk (digits.take 2 ++ '/' :: (digits.drop 2).take 2)

/-- Test of the JS regex for a full expiry: two digits, a slash, two
digits, anchored on both sides. -/
def expiryValid (s : String) : Bool :=
  match s.data with
  | [a, b, sep, c, d] => a.isDigit && b.isDigit && sep == '/' && c.isDigit && d.isDigit
  | _ => false

/-- Test of the JS regex for the card code: exactly three digits,
anchored on both sides. -/
def cvcValid (s : String) : Bool :=
  match s.data with
  | [a, b, c] => a.isDigit && b.isDigit && c.isDigit
  | _ => false

/-- Investment plan as passed to the payment modal.  The numeric plan
fields are only copied into the created records, so an Int carrier is
adequate. -/
structure Plan where
  id : String
  name : String
  deposit_usd : Int
  payout_per_drop_usd : Int
  drops_count : Int
  total_return_usd : Int
deriving DecidableEq, Repr

/-- Local state of the card tab of the payment modal. -/
structure CardForm where
  cardNumber : String
  expiry : String
  cvc : String
  cardholder : String
  confirmTerms : Bool
deriving DecidableEq, Repr

/-- A file chosen in the crypto tab: size in bytes, MIME type, file name
and the base64 payload the FileReader produces for it. -/
structure FileInfo where
  size : Nat
  mime : String
  name : String
  base64Data : String
deriving DecidableEq, Repr

/-- Local state of the crypto tab of the payment modal. -/
structure CryptoForm where
  currency : String
  amountCrypto : String
  txHash : String
  proofFile : Option FileInfo
  note : String
  confirmTerms : Bool
deriving DecidableEq, Repr

/-- The card sub-record stored in a card transaction document. -/
structure CardInfo where
  last4 : String
  expiry : String
deriving DecidableEq, Repr

/-- The proof-file sub-record stored in a crypto transaction document. -/
structure ProofInfo where
  data : String
  name : String
  mime : String
deriving DecidableEq, Repr

/-- Transaction document written by the payment modal.  Fields that only
one of the two payment paths sets are optional, mirroring the schemaless
store; the backend-assigned server timestamp is not modelled. -/
structure TxDoc where
  userEmail : String
  planId : String
  amount_usd : Option Int
  amountCrypto : Option String
  currency : Option String
  txHash : Option String
  proofFile : Option ProofInfo
  note : Option String
  txType : String
  method : String
  status : String
  card : Option CardInfo
deriving DecidableEq, Repr

/-- Investment document written by the payment modal after the
transaction document; transactionId holds the identifier the store
returned for that transaction. -/
structure InvDoc where
  userEmail : String
  planId : String
  transactionId : Nat
  deposit_usd : Int
  payout_per_drop_usd : Int
  drops_count : Int
  total_return_usd : Int
  status : String
deriving DecidableEq, Repr

/-- One remote write, recorded in the order the handlers issue them. -/
inductive WriteEntry where
  | txWrite (id : Nat) (doc : TxDoc)
  | invWrite (id : Nat) (doc : InvDoc)
deriving DecidableEq, Repr

/-- The slice of the document store the payment modal touches, with a
fresh-identifier counter and a log of the writes in issue order. -/
structure Store where
  transactions : List (Nat × TxDoc)
  investments : List (Nat × InvDoc)
  nextId : Nat
  log : List WriteEntry
deriving DecidableEq, Repr

/-- The empty document store. -/
def emptyStore : Store := { transactions := [], investments := [], nextId := 0, log := [] }

/-- addDoc on the transactions collection: append the document under a
fresh identifier and return that identifier. -/
def addTransaction (st : Store) (d : TxDoc) : Nat × Store :=
  (st.nextId,
   { st with
     transactions := st.transactions ++ [(st.nextId, d)]
     nextId := st.nextId + 1
     log := st.log ++ [WriteEntry.txWrite st.nextId d] })

/-- addDoc on the investments collection: append the document under a
fresh identifier and return that identifier. -/
def addInvestment (st : Store) (d : InvDoc) : Nat × Store :=
  (st.nextId,
   { st with
     investments := st.investments ++ [(st.nextId, d)]
     nextId := st.nextId + 1
     log := st.log ++ [WriteEntry.invWrite st.nextId d] })

/-- Outcome of a payment modal submission: the silent return when no
user email is available, a validation error notification, or success. -/
inductive PayResult where
  | silentAbort
  | invalid (msg : String)
  | accepted
deriving DecidableEq, Repr

/-- The handler handleFakeStripePayment of the payment modal.  It
returns silently without a user email; it rejects when the card number
stripped of whitespace is not 16 characters long, the expiry or the card
code fails its regex, the cardholder is empty, or the terms box is
unchecked; otherwise it writes one transaction document and then one
investment document whose transactionId is the fresh identifier of that
transaction. -/
def handleFakeStripePayment (email : Option String) (form : CardForm) (plan : Plan)
    (st : Store) : PayResult × Store :=
  match email with
  | none => (PayResult.silentAbort, st)
  | some e =>
    let cardNumberDigits := stripWhitespace form.cardNumber
    if cardNumberDigits.length != 16 || !expiryValid form.expiry || !cvcValid form.cvc
        || form.cardholder.isEmpty || !form.confirmTerms then
      (PayResult.invalid "Invalid card details or terms not confirmed", st)
    else
      let txDoc : TxDoc :=
        { userEmail := e
          planId := plan.id
          amount_usd := some plan.deposit_usd
          amountCrypto := none
          currency := none
          txHash := none
          proofFile := none
          note := none
          txType := "deposit"
          method := "Stripe"
          status := "success"
          card := some { last4 := String.mk (cardNumberDigits.data.drop (cardNumberDigits.length - 4))
                         expiry := form.expiry } }
      let txRes := addTransaction st txDoc
      let invDoc : InvDoc :=
        { userEmail := e
          planId := plan.id
          transactionId := txRes.1
          deposit_usd := plan.deposit_usd
          payout_per_drop_usd := plan.payout_per_drop_usd
          drops_count := plan.drops_count
          total_return_usd := plan.total_return_usd
          status := "active" }
      let invRes := addInvestment txRes.2 invDoc
      (PayResult.accepted, invRes.2)

/-- The handler handleCryptoSubmit of the payment modal.  It rejects
when the transaction hash is empty, no proof file is attached, or the
terms box is unchecked; otherwise it writes one transaction document
embedding the proof file and then one investment document referencing
it. -/
def handleCryptoSubmit (email : Option String) (form : CryptoForm) (plan : Plan)
    (st : Store) : PayResult × Store :=
  if form.txHash.isEmpty || form.proofFile.isNone || !form.confirmTerms then
    (PayResult.invalid "Fill all required fields and confirm terms", st)
  else
    let txDoc : TxDoc :=
      { userEmail := email.getD "anonymous"
        planId := plan.id
        amount_usd := none
        amountCrypto := if form.amountCrypto.isEmpty then none else some form.amountCrypto
        currency := some form.currency
        txHash := some form.txHash
        proofFile := form.proofFile.map (fun f => { data := f.base64Data, name := f.name, mime := f.mime })
        note := some form.note
        txType := "deposit"
        method := "crypto"
        status := "success"
        card := none }
    let txRes := addTransaction st txDoc
    let invDoc : InvDoc :=
      { userEmail := email.getD "anonymous"
        planId := plan.id
        transactionId := txRes.1
        deposit_usd := plan.deposit_usd
        payout_per_drop_usd := plan.payout_per_drop_usd
        drops_count := plan.drops_count
        total_return_usd := plan.total_return_usd
        status := "active" }
    let invRes := addInvestment txRes.2 invDoc
    (PayResult.accepted, invRes.2)

/-- The handler handleFileChange of the crypto tab: the chosen file
becomes the attached proof only when its size is at most five binary
megabytes and its MIME type starts with the image prefix; otherwise the
form is left untouched. -/
def handleFileChange (file : FileInfo) (form : CryptoForm) : CryptoForm :=
  if file.size > 5 * 1024 * 1024 then form
  else if !file.mime.startsWith "image/" then form
  else { form with proofFile := some file }

/-! ## Wallet page (Wallet.tsx) -/

/-- Transaction record appended by the Wallet page handlers; the amount
is in cents, the creation timestamp is not modelled. -/
structure WalletTx where
  userId : String
  txType : String
  amount : Int
  status : String
  note : String
deriving DecidableEq, Repr

/-- Outcome of a Wallet page form submission. -/
inductive WalletResult where
  | invalid (msg : String)
  | accepted
deriving DecidableEq, Repr

/-- The handler handleWithdraw of the Wallet page, applied to the cent
amount computed from the input, the three bank fields, the displayed
balance and the stored transaction list.  A non-positive amount, an
amount above the balance, or a missing bank field is rejected and
changes nothing; otherwise the stored balance is set to the old balance
minus the amount and one pending withdrawal transaction is appended. -/
def handleWithdraw (uid : String) (amount : Int)
    (bankName accountNumber accountName : String)
    (balance : Int) (txs : List WalletTx) : WalletResult × Int × List WalletTx :=
  if amount <= 0 then (WalletResult.invalid "Enter valid amount", balance, txs)
  else if amount > balance then (WalletResult.invalid "Insufficient balance", balance, txs)
  else if bankName.isEmpty || accountNumber.isEmpty || accountName.isEmpty then
    (WalletResult.invalid "Fill all bank details", balance, txs)
  else
    (WalletResult.accepted, balance - amount,
     txs ++ [{ userId := uid
               txType := "withdrawal"
               amount := amount
               status := "pending"
               note := "To " ++ bankName ++ " - " ++ accountNumber ++ " (" ++ accountName ++ ")" }])

/-! ## Registration (Register.tsx and the email-based copy) -/

/-- Test of the JS regex for a phone number: an optional plus sign, a
first digit from one to nine, then one to fourteen digits, anchored on
both sides. -/
def phoneReTest (s : String) : Bool :=
  let cs := match s.data with
    | '+' :: rest => rest
    | cs => cs
  match cs with
  | [] => false
  | c :: rest =>
    ('1' <= c && c <= '9') && decide (1 <= rest.length) && decide (rest.length <= 14)
      && rest.all Char.isDigit

/-- Form state of the phone-based registration page Register.tsx. -/
structure RegisterForm where
  name : String
  phone : String
  country : String
  password : String
  confirmPassword : String
  referralCode : String
deriving DecidableEq, Repr

/-- Form state of the email-based registration copy. -/
structure EmailRegisterForm where
  phone : String
  email : String
  password : String
  confirmPassword : String
  country : String
  referralCode : String
deriving DecidableEq, Repr

/-- Outcome of the client-side validation prefix of a registration
handler: either an early return with an error notification, or the
handler proceeds to create the account and profile. -/
inductive RegValidation where
  | rejected (msg : String)
  | proceed
deriving DecidableEq, Repr

/-- The validation prefix of handleSubmit in Register.tsx, in source
order: trimmed name, phone and country must be non-empty, the password
must equal its confirmation and have at least six characters, and the
phone stripped of whitespace must pass the phone regex. -/
def handleSubmitValidation (f : RegisterForm) : RegValidation :=
  if (jsTrim f.name).isEmpty then RegValidation.rejected "Enter your name"
  else if f.phone.isEmpty then RegValidation.rejected "Enter phone number"
  else if f.country.isEmpty then RegValidation.rejected "Select your country"
  else if f.password != f.confirmPassword then RegValidation.rejected "Passwords do not match"
  else if f.password.length < 6 then RegValidation.rejected "Password too short"
  else if !phoneReTest (stripWhitespace f.phone) then RegValidation.rejected "Invalid phone number"
  else RegValidation.proceed

/-- The validation prefix of handleEmailSignUp in the email-based copy,
in source order: the country must be non-empty and the password must
equal its confirmation.  The handler itself checks nothing else; in
particular it never tests the password length or the phone format. -/
def handleEmailSignUpValidation (f : EmailRegisterForm) : RegValidation :=
  if f.country.isEmpty then RegValidation.rejected "Please fill all required fields"
  else if f.password != f.confirmPassword then RegValidation.rejected "Passwords do not match"
  else RegValidation.proceed

/-- Profile document in the users collection, as read and written by
the registration and referral code. -/
structure Profile where
  id : String
  name : String
  phone : String
  country : String
  balance : Int
  referralCode : String
  referrerCode : Option String
deriving DecidableEq, Repr

/-- The handler handleReferralBonus shared by both registration
variants: query the users whose referralCode equals the supplied code
and add the fixed bonus of 1000 to the balance of each of them. -/
def handleReferralBonus (code : String) (users : List Profile) : List Profile :=
  users.map (fun u => if u.referralCode == code then { u with balance := u.balance + 1000 } else u)

/-- The 36-character alphabet of generateReferralCode. -/
def referralChars : List Char := "ABCDEFGHIJKLMNOPQRSTUVWXYZ0123456789".data

/-- The helper generateReferralCode of both registration variants,
applied to the list of the eight values of floor of random times 36 the
loop draws: each value indexes the 36-character alphabet. -/
def generateReferralCode (rands : List Nat) : String :=
  String.mk (rands.map (fun r => referralChars.getD r 'A'))

/-- The 36 digit characters a JS number renders to in base 36. -/
def base36Chars : List Char := "0123456789abcdefghijklmnopqrstuvwxyz".data

/-- The referral code built inline by recreateProfile on the Dashboard:
random in base 36 renders as zero, a dot, then its fractional base-36
digits; the substring from index two to ten keeps at most the first
eight of those digits, and toUpperCase maps them to upper case.  The
argument is the list of fractional base-36 digit values of the drawn
random number. -/
def recreateReferralCode (fracDigits : List Nat) : String :=
  String.mk (((fracDigits.map (fun d => base36Chars.getD d '0')).take 8).map Char.toUpper)

/-! ## Dashboard investments and Transactions page -/

/-- Seconds field of a Firestore timestamp. -/
structure FireTimestamp where
  seconds : Nat
deriving DecidableEq, Repr

/-- Investment list item as the Dashboard reads it. -/
structure Investment where
  id : String
  planId : String
  planName : String
  deposit_usd : Int
  payout_per_drop_usd : Int
  drops_count : Int
  total_return_usd : Int
  status : String
  createdAt : Option FireTimestamp
  userId : String
deriving DecidableEq, Repr

/-- Sort key of the Dashboard comparator: the seconds of the creation
timestamp, or zero when the timestamp is missing. -/
def invSortKey (i : Investment) : Nat :=
  match i.createdAt with
  | some t => t.seconds
  | none => 0

/-- The descending-creation-time order the Dashboard comparator
induces. -/
def invDescRel (a b : Investment) : Prop := invSortKey b ≤ invSortKey a

instance : DecidableRel invDescRel :=
  fun a b => inferInstanceAs (Decidable (invSortKey b ≤ invSortKey a))

instance : IsTotal Investment invDescRel :=
  ⟨fun a b => Nat.le_total (invSortKey b) (invSortKey a)⟩

instance : IsTrans Investment invDescRel :=
  ⟨fun _ _ _ hab hbc => Nat.le_trans hbc hab⟩

/-- The in-place sort of the fetched investments in both Dashboard
variants, newest first; the comparator subtracts the keys, and the JS
sort is stable, so a stable sort by the descending key order models
it. -/
def sortInvestments (l : List Investment) : List Investment :=
  List.insertionSort invDescRel l

/-- Transaction list item as the Transactions page reads it. -/
structure PageTx where
  id : String
  userId : String
  txType : String
  amount : Nat
  amountCrypto : Option Int
  currency : Option String
  createdAt : Option FireTimestamp
  status : String
  note : Option String
  txHash : Option String
deriving DecidableEq, Repr

/-- Sort key of the Transactions page comparator: the seconds of the
creation timestamp, or zero when the timestamp is missing. -/
def txSortKey (t : PageTx) : Nat :=
  match t.createdAt with
  | some ts => ts.seconds
  | none => 0

/-- The descending-creation-time order the Transactions page comparator
induces. -/
def txDescRel (a b : PageTx) : Prop := txSortKey b ≤ txSortKey a

instance : DecidableRel txDescRel :=
  fun a b => inferInstanceAs (Decidable (txSortKey b ≤ txSortKey a))

instance : IsTotal PageTx txDescRel :=
  ⟨fun a b => Nat.le_total (txSortKey b) (txSortKey a)⟩

instance : IsTrans PageTx txDescRel :=
  ⟨fun _ _ _ hab hbc => Nat.le_trans hbc hab⟩

/-- The newest-first sort the snapshot handler of the Transactions page
applies to the fetched list before storing it. -/
def sortTransactions (l : List PageTx) : List PageTx :=
  List.insertionSort txDescRel l

/-- The filtering effect of the Transactions page: the all filter keeps
the stored list, any other filter keeps the transactions whose type
equals the filter string. -/
def filterTransactions (filter : String) (txs : List PageTx) : List PageTx :=
  if filter == "all" then txs
  else txs.filter (fun tx => tx.txType == filter)

/-- The capitalisation of the type cell in the CSV export: upper-case
the first character and keep the rest. -/
def capitalize (s : String) : String :=
  match s.data with
  | [] => ""
  | c :: cs => String.mk (c.toUpper :: cs)

/-- Comma insertion after every third character of a reversed digit
list, the effect of the grouping regex in formatUSD. -/
def commasRevAux : Nat → List Char → List Char
  | _, [] => []
  | 0, c :: cs => ',' :: c :: commasRevAux 2 cs
  | k + 1, c :: cs => c :: commasRevAux k cs

/-- Thousands grouping of a digit string, as the regex replace in
formatUSD produces it. -/
def groupThousands (s : String) : String :=
  String.mk ((commasRevAux 3 s.data.reverse).reverse)

/-- Two-digit rendering of a cent remainder below one hundred. -/
def twoPad (n : Nat) : String :=
  if n < 10 then "0" ++ toString n else toString n

/-- The helper formatUSD of the Transactions page: dollars with two
decimals from a cent amount, a dollar sign, and thousands commas. -/
def formatUSD (cents : Nat) : String :=
  "$" ++ groupThousands (toString (cents / 100)) ++ "." ++ twoPad (cents % 100)

/-- Date cell of a CSV row.  The JS code renders the timestamp seconds
through the Date constructor and toLocaleString, a locale-dependent
rendering abstracted here as the function argument; a missing timestamp
renders as the fixed placeholder. -/
def dateCell (dateFmt : Nat → String) (tx : PageTx) : String :=
  match tx.createdAt with
  | some t => dateFmt t.seconds
  | none => "N/A"

/-- Amount cell of a CSV row: a truthy crypto amount renders with its
currency, otherwise the cent amount renders through formatUSD. -/
def amountCell (tx : PageTx) : String :=
  match tx.amountCrypto with
  | some a => if a == 0 then formatUSD tx.amount else toString a ++ " " ++ (tx.currency.getD "")
  | none => formatUSD tx.amount

/-- One data row of the CSV export, in the column order of the source:
date, type, amount, status, note. -/
def csvRow (dateFmt : Nat → String) (tx : PageTx) : List String :=
  [dateCell dateFmt tx, capitalize tx.txType, amountCell tx, tx.status, tx.note.getD ""]

/-- The handler exportToCSV of the Transactions page: an empty filtered
list is rejected with a notification and produces nothing; otherwise the
header row and one row per filtered transaction, in list order, are
joined by commas and newlines into the downloaded file content. -/
def exportToCSV (dateFmt : Nat → String) (filteredTxs : List PageTx) :
    Except String (List (List String) × String) :=
  if filteredTxs.isEmpty then Except.error "No transactions to export"
  else
    let headers := ["Date", "Type", "Amount", "Status", "Note"]
    let rows := headers :: filteredTxs.map (csvRow dateFmt)
    Except.ok (rows, String.intercalate "\n" (rows.map (String.intercalate ",")))

/-! ## Claims about the Wallet withdraw handler -/

/-- A non-empty string has isEmpty false. -/
theorem isEmpty_false_of_ne (s : String) (h : s ≠ "") : s.isEmpty = false := by
  cases hbe : s.isEmpty
  · rfl
  · exact absurd ((String.isEmpty_iff s).mp hbe) h

/-- Shape of the accepted branch of handleWithdraw, shared by the
claims about the Wallet page. -/
theorem handleWithdraw_accept (uid : String) (amount : Int)
    (bankName accountNumber accountName : String)
    (balance : Int) (txs : List WalletTx)
    (hpos : 0 < amount) (hle : amount ≤ balance)
    (hb : bankName ≠ "") (ha : accountNumber ≠ "") (hn : accountName ≠ "") :
    handleWithdraw uid amount bankName accountNumber accountName balance txs =
      (WalletResult.accepted, balance - amount,
       txs ++ [{ userId := uid, txType := "withdrawal", amount := amount, status := "pending",
                 note := "To " ++ bankName ++ " - " ++ accountNumber
                   ++ " (" ++ accountName ++ ")" }]) := by
  have h1 : ¬ amount ≤ 0 := by omega
  have h2 : ¬ amount > balance := by omega
  simp [handleWithdraw, h1, h2, isEmpty_false_of_ne bankName hb,
    isEmpty_false_of_ne accountNumber ha, isEmpty_false_of_ne accountName hn]

/-- Claim C2: for a positive requested cent amount, a withdrawal above
the current balance is rejected and changes neither the balance nor the
transaction list, while a withdrawal at most the balance with all three
bank fields non-empty decreases the stored balance by exactly the
requested amount and appends exactly one transaction record. -/
theorem c2_withdrawal (uid : String) (amount : Int)
    (bankName accountNumber accountName : String)
    (balance : Int) (txs : List WalletTx) (hpos : 0 < amount) :
    (balance < amount →
      handleWithdraw uid amount bankName accountNumber accountName balance txs =
        (WalletResult.invalid "Insufficient balance", balance, txs))
    ∧ (amount ≤ balance → bankName ≠ "" → accountNumber ≠ "" → accountName ≠ "" →
      ∃ tx : WalletTx,
        handleWithdraw uid amount bankName accountNumber accountName balance txs =
          (WalletResult.accepted, balance - amount, txs ++ [tx])
        ∧ tx.txType = "withdrawal" ∧ tx.amount = amount ∧ tx.status = "pending") := by
  constructor
  · intro hlt
    have h1 : ¬ amount ≤ 0 := by omega
    have h2 : amount > balance := hlt
    simp [handleWithdraw, h1, h2]
  · intro hle hb ha hn
    exact ⟨_, handleWithdraw_accept uid amount bankName accountNumber accountName balance txs
             hpos hle hb ha hn, rfl, rfl, rfl⟩

/-- Witness for claim C2 at a concrete accepted withdrawal. -/
theorem c2_withdrawal_witness :
    ∃ tx : WalletTx,
      handleWithdraw "u1" 2500 "Chase Bank" "1234567890" "John Doe" 10000 [] =
        (WalletResult.accepted, 10000 - 2500, [] ++ [tx])
      ∧ tx.txType = "withdrawal" ∧ tx.amount = 2500 ∧ tx.status = "pending" :=
  (c2_withdrawal "u1" 2500 "Chase Bank" "1234567890" "John Doe" 10000 [] (by decide)).2
    (by decide) (by decide) (by decide) (by decide)

/-- Claim C10: starting from a non-negative stored balance, the balance
after any submission of the withdraw handler stays non-negative, an
accepted withdrawal leaves exactly the old balance minus the amount,
and withdrawing the full balance leaves exactly zero. -/
theorem c10_balance_never_negative (uid : String) (amount : Int)
    (bankName accountNumber accountName : String)
    (balance : Int) (txs : List WalletTx) (hbal : 0 ≤ balance) :
    0 ≤ (handleWithdraw uid amount bankName accountNumber accountName balance txs).2.1
    ∧ (0 < amount → amount ≤ balance → bankName ≠ "" → accountNumber ≠ "" → accountName ≠ "" →
        (handleWithdraw uid amount bankName accountNumber accountName balance txs).2.1
          = balance - amount
        ∧ (amount = balance →
            (handleWithdraw uid amount bankName accountNumber accountName balance txs).2.1 = 0)) := by
  constructor
  · unfold handleWithdraw
    split_ifs <;> simp <;> omega
  · intro hpos hle hb ha hn
    rw [handleWithdraw_accept uid amount bankName accountNumber accountName balance txs
      hpos hle hb ha hn]
    exact ⟨rfl, fun hfull => by simp [hfull]⟩

/-- Witness for claim C10 at a concrete full withdrawal. -/
theorem c10_balance_never_negative_witness :
    (handleWithdraw "u1" 10000 "Chase Bank" "1234567890" "John Doe" 10000 []).2.1 = 0 := by
  obtain ⟨-, h⟩ :=
    c10_balance_never_negative "u1" 10000 "Chase Bank" "1234567890" "John Doe" 10000 [] (by decide)
  exact (h (by decide) (by decide) (by decide) (by decide) (by decide)).2 rfl

/-! ## Claims about the referral bonus and the Dashboard -/

/-- Claim C3: a referral bonus application adds exactly 1000 to the
balance of every profile whose referralCode equals the supplied code
and leaves every other profile untouched, so two referred signups with
the same code add 2000 to the referrer in total. -/
theorem c3_referral_bonus (code : String) (users : List Profile) (i : Nat) (u : Profile)
    (hu : users[i]? = some u) :
    (u.referralCode = code →
       (handleReferralBonus code users)[i]? = some { u with balance := u.balance + 1000 }
       ∧ (handleReferralBonus code (handleReferralBonus code users))[i]? =
           some { u with balance := u.balance + 1000 + 1000 })
    ∧ (u.referralCode ≠ code → (handleReferralBonus code users)[i]? = some u) := by
  constructor
  · intro hmatch
    constructor
    · simp [handleReferralBonus, List.getElem?_map, hu, hmatch]
    · simp [handleReferralBonus, List.getElem?_map, hu, hmatch]
  · intro hm
    simp [handleReferralBonus, List.getElem?_map, hu, hm]

/-- Witness for claim C3: a two-profile store where only the first
profile carries the matching code, bonus applied twice. -/
theorem c3_referral_bonus_witness :
    (handleReferralBonus "REFCODE1"
      (handleReferralBonus "REFCODE1"
        [{ id := "a", name := "A", phone := "+15551234", country := "US", balance := 500,
           referralCode := "REFCODE1", referrerCode := none },
         { id := "b", name := "B", phone := "+15551235", country := "US", balance := 700,
           referralCode := "OTHER", referrerCode := none }]))[0]? =
      some { id := "a", name := "A", phone := "+15551234", country := "US", balance := 500 + 1000 + 1000,
             referralCode := "REFCODE1", referrerCode := none } :=
  ((c3_referral_bonus "REFCODE1"
      [{ id := "a", name := "A", phone := "+15551234", country := "US", balance := 500,
         referralCode := "REFCODE1", referrerCode := none },
       { id := "b", name := "B", phone := "+15551235", country := "US", balance := 700,
         referralCode := "OTHER", referrerCode := none }] 0
      { id := "a", name := "A", phone := "+15551234", country := "US", balance := 500,
        referralCode := "REFCODE1", referrerCode := none } (by decide)).1 rfl).2

/-- Claim C5: for every fetch arrival order, the investment list the
Dashboard stores is a permutation of the fetched list sorted by
creation time descending, missing timestamps counting as zero. -/
theorem c5_dashboard_sorted (l : List Investment) :
    (sortInvestments l).Perm l
    ∧ (sortInvestments l).Sorted (fun a b => invSortKey b ≤ invSortKey a) :=
  ⟨List.perm_insertionSort invDescRel l, List.sorted_insertionSort invDescRel l⟩

/-! ## Claims about the Transactions page -/

/-- Claim C6: the stored transaction list is sorted by creation time
descending; the all filter returns it unchanged, any other filter
returns exactly the transactions whose type equals the filter, as a
subsequence of the stored list, still sorted descending. -/
theorem c6_type_filter (filter : String) (l : List PageTx) :
    filterTransactions "all" (sortTransactions l) = sortTransactions l
    ∧ (sortTransactions l).Sorted (fun a b => txSortKey b ≤ txSortKey a)
    ∧ (filter ≠ "all" →
        filterTransactions filter (sortTransactions l) =
          (sortTransactions l).filter (fun tx => tx.txType == filter))
    ∧ (filterTransactions filter (sortTransactions l)).Sublist (sortTransactions l)
    ∧ (filter ≠ "all" → ∀ tx ∈ filterTransactions filter (sortTransactions l), tx.txType = filter)
    ∧ (filterTransactions filter (sortTransactions l)).Sorted
        (fun a b => txSortKey b ≤ txSortKey a) := by
  have hsorted : (sortTransactions l).Sorted txDescRel := List.sorted_insertionSort txDescRel l
  have hsub : (filterTransactions filter (sortTransactions l)).Sublist (sortTransactions l) := by
    by_cases h : filter == "all"
    · simp [filterTransactions, h]
    · simp only [filterTransactions, h, Bool.false_eq_true, if_false]
      exact List.filter_sublist (sortTransactions l)
  refine ⟨by simp [filterTransactions], hsorted, ?_, hsub, ?_, hsorted.sublist hsub⟩
  · intro h
    have hbeq : (filter == "all") = false := by
      cases hb : filter == "all"
      · rfl
      · exact absurd (eq_of_beq hb) h
    simp [filterTransactions, hbeq]
  · intro h tx htx
    have hbeq : (filter == "all") = false := by
      cases hb : filter == "all"
      · rfl
      · exact absurd (eq_of_beq hb) h
    simp only [filterTransactions, hbeq, Bool.false_eq_true, if_false] at htx
    exact eq_of_beq (List.mem_filter.mp htx).2

/-- Witness for claim C6 at a concrete two-element list and the deposit
filter. -/
theorem c6_type_filter_witness :
    ∀ tx ∈ filterTransactions "deposit"
        (sortTransactions
          [{ id := "t1", userId := "u", txType := "deposit", amount := 100, amountCrypto := none,
             currency := none, createdAt := some ⟨5⟩, status := "success", note := none,
             txHash := none },
           { id := "t2", userId := "u", txType := "withdrawal", amount := 200, amountCrypto := none,
             currency := none, createdAt := some ⟨9⟩, status := "pending", note := none,
             txHash := none }]),
      tx.txType = "deposit" :=
  ((c6_type_filter "deposit"
      [{ id := "t1", userId := "u", txType := "deposit", amount := 100, amountCrypto := none,
         currency := none, createdAt := some ⟨5⟩, status := "success", note := none,
         txHash := none },
       { id := "t2", userId := "u", txType := "withdrawal", amount := 200, amountCrypto := none,
         currency := none, createdAt := some ⟨9⟩, status := "pending", note := none,
         txHash := none }]).2.2.2.2).1 (by decide)

/-- Claim C7: exporting an empty filtered list is rejected with a
notification and produces no file content, while a non-empty filtered
list produces the header row followed by exactly one row per
transaction, in list order, with the columns date, type, amount,
status, note. -/
theorem c7_csv_export (dateFmt : Nat → String) (txs : List PageTx) :
    (txs = [] → exportToCSV dateFmt txs = Except.error "No transactions to export")
    ∧ (txs ≠ [] →
        ∃ rows content,
          exportToCSV dateFmt txs =
            Except.ok (["Date", "Type", "Amount", "Status", "Note"] :: rows, content)
          ∧ rows.length = txs.length
          ∧ (∀ i : Nat, rows[i]? = (txs[i]?).map (fun tx =>
              [dateCell dateFmt tx, capitalize tx.txType, amountCell tx,
               tx.status, tx.note.getD ""]))
          ∧ content = String.intercalate "\n"
              ((["Date", "Type", "Amount", "Status", "Note"] :: rows).map
                (String.intercalate ","))) := by
  constructor
  · intro h
    simp [exportToCSV, h]
  · intro h
    have hne : txs.isEmpty = false := by
      cases hbe : txs.isEmpty
      · rfl
      · exact absurd (List.isEmpty_iff.mp hbe) h
    refine ⟨txs.map (csvRow dateFmt), _, by simp [exportToCSV, hne], by simp, ?_, rfl⟩
    intro i
    rw [List.getElem?_map]
    rfl

/-- Witness for claim C7 at a concrete one-element list. -/
theorem c7_csv_export_witness :
    ∃ rows content,
      exportToCSV (fun s => toString s)
        [{ id := "t1", userId := "u", txType := "deposit", amount := 12345, amountCrypto := none,
           currency := none, createdAt := some ⟨7⟩, status := "success", note := none,
           txHash := none }] =
        Except.ok (["Date", "Type", "Amount", "Status", "Note"] :: rows, content)
      ∧ rows.length = 1 :=
  let tx1 : PageTx :=
    { id := "t1", userId := "u", txType := "deposit", amount := 12345, amountCrypto := none,
      currency := none, createdAt := some ⟨7⟩, status := "success", note := none, txHash := none }
  let h := (c7_csv_export (fun s => toString s) [tx1]).2 (by decide)
  ⟨h.choose, h.choose_spec.choose,
    h.choose_spec.choose_spec.1, h.choose_spec.choose_spec.2.1⟩

/-! ## Claims about the crypto payment path -/

/-- Claim C8: a crypto submission with an empty transaction hash, no
attached proof file, or unconfirmed terms is rejected with a
notification and writes nothing, and a chosen file becomes the attached
proof exactly when it is at most five binary megabytes and its MIME
type starts with the image prefix, the form staying untouched
otherwise. -/
theorem c8_crypto_validation (email : Option String) (form : CryptoForm) (plan : Plan)
    (st : Store) (file : FileInfo) :
    (form.txHash = "" ∨ form.proofFile = none ∨ form.confirmTerms = false →
      handleCryptoSubmit email form plan st =
        (PayResult.invalid "Fill all required fields and confirm terms", st))
    ∧ (file.size ≤ 5 * 1024 * 1024 → file.mime.startsWith "image/" = true →
        handleFileChange file form = { form with proofFile := some file })
    ∧ (file.size > 5 * 1024 * 1024 ∨ file.mime.startsWith "image/" = false →
        handleFileChange file form = form) := by
  refine ⟨?_, ?_, ?_⟩
  · intro h
    have hc : (form.txHash.isEmpty || form.proofFile.isNone || !form.confirmTerms) = true := by
      rcases h with h | h | h
      · have he : form.txHash.isEmpty = true := by rw [h]; decide
        simp [he]
      · simp [h]
      · simp [h]
    simp [handleCryptoSubmit, hc]
  · intro hsize hmime
    have h1 : ¬ file.size > 5 * 1024 * 1024 := by omega
    simp [handleFileChange, h1, hmime]
  · intro h
    rcases h with h | h
    · simp [handleFileChange, h]
    · by_cases h1 : file.size > 5 * 1024 * 1024
      · simp [handleFileChange, h1]
      · simp [handleFileChange, h1, h]

/-- Witness for claim C8: a submission missing its hash is rejected,
an oversized file is ignored. -/
theorem c8_crypto_validation_witness :
    handleCryptoSubmit (some "a@b.c")
        { currency := "USDT", amountCrypto := "", txHash := "", proofFile := none,
          note := "", confirmTerms := true }
        { id := "p1", name := "Starter", deposit_usd := 100, payout_per_drop_usd := 10,
          drops_count := 12, total_return_usd := 120 } emptyStore =
      (PayResult.invalid "Fill all required fields and confirm terms", emptyStore)
    ∧ handleFileChange
        { size := 6 * 1024 * 1024, mime := "image/png", name := "proof.png", base64Data := "QUJD" }
        { currency := "USDT", amountCrypto := "", txHash := "0xabc", proofFile := none,
          note := "", confirmTerms := true } =
      { currency := "USDT", amountCrypto := "", txHash := "0xabc", proofFile := none,
        note := "", confirmTerms := true } :=
  ⟨(c8_crypto_validation (some "a@b.c")
      { currency := "USDT", amountCrypto := "", txHash := "", proofFile := none,
        note := "", confirmTerms := true }
      { id := "p1", name := "Starter", deposit_usd := 100, payout_per_drop_usd := 10,
        drops_count := 12, total_return_usd := 120 } emptyStore
      { size := 6 * 1024 * 1024, mime := "image/png", name := "proof.png",
        base64Data := "QUJD" }).1 (Or.inl rfl),
   (c8_crypto_validation (some "a@b.c")
      { currency := "USDT", amountCrypto := "", txHash := "0xabc", proofFile := none,
        note := "", confirmTerms := true }
      { id := "p1", name := "Starter", deposit_usd := 100, payout_per_drop_usd := 10,
        drops_count := 12, total_return_usd := 120 } emptyStore
      { size := 6 * 1024 * 1024, mime := "image/png", name := "proof.png",
        base64Data := "QUJD" }).2.2 (Or.inl (by decide))⟩

/-! ## Claims about referral code generation -/

/-- Claim C9 counterexample: when the random draw of recreateProfile is
one half, its base-36 rendering is zero, a dot, and the single
fractional digit eighteen, so the generated referral code is the single
character capital I rather than an 8-character code. -/
theorem c9_counterexample :
    (recreateReferralCode [18]).length = 1 ∧ recreateReferralCode [18] = "I" := by
  decide

/-- Claim C9 as amended: the registration helper generateReferralCode
always yields exactly 8 characters from the uppercase-letter-and-digit
alphabet, while the inline code of the Dashboard recovery path yields
at most 8 characters from that alphabet and can yield fewer. -/
theorem c9_referral_code_shape (rands : List Nat) (fracDigits : List Nat)
    (hlen : rands.length = 8) (hlt : ∀ r ∈ rands, r < 36)
    (hfrac : ∀ d ∈ fracDigits, d < 36) :
    (generateReferralCode rands).length = 8
    ∧ (∀ c ∈ (generateReferralCode rands).data, c ∈ referralChars)
    ∧ (recreateReferralCode fracDigits).length ≤ 8
    ∧ (∀ c ∈ (recreateReferralCode fracDigits).data, c ∈ referralChars) := by
  have hmem : ∀ r < 36, referralChars.getD r 'A' ∈ referralChars := by decide
  have hup : ∀ d < 36, (base36Chars.getD d '0').toUpper ∈ referralChars := by decide
  refine ⟨?_, ?_, ?_, ?_⟩
  · show (rands.map fun r => referralChars.getD r 'A').length = 8
    simp [hlen]
  · intro c hc
    simp only [generateReferralCode, List.mem_map] at hc
    obtain ⟨r, hr, rfl⟩ := hc
    exact hmem r (hlt r hr)
  · show (((fracDigits.map fun d => base36Chars.getD d '0').take 8).map Char.toUpper).length ≤ 8
    simp [List.length_take]
  · intro c hc
    simp only [recreateReferralCode, List.mem_map] at hc
    obtain ⟨b, hb, rfl⟩ := hc
    have hb2 := List.mem_of_mem_take hb
    simp only [List.mem_map] at hb2
    obtain ⟨d, hd, rfl⟩ := hb2
    exact hup d (hfrac d hd)

/-- Witness for claim C9 at a concrete draw list and the one-digit
fractional rendering of one half. -/
theorem c9_referral_code_shape_witness :
    (generateReferralCode [0, 1, 2, 3, 33, 34, 35, 10]).length = 8
    ∧ (∀ c ∈ (generateReferralCode [0, 1, 2, 3, 33, 34, 35, 10]).data, c ∈ referralChars)
    ∧ (recreateReferralCode [18]).length ≤ 8
    ∧ (∀ c ∈ (recreateReferralCode [18]).data, c ∈ referralChars) :=
  c9_referral_code_shape [0, 1, 2, 3, 33, 34, 35, 10] [18] (by decide)
    (by decide) (by decide)

/-! ## Claims about registration validation -/

/-- Concrete email-variant submission: a non-empty country, matching
six-character passwords, and the phone string abc, which does not match
the phone regex. -/
def c4Form : EmailRegisterForm :=
  { phone := "abc", email := "user@example.com", password := "123456",
    confirmPassword := "123456", country := "US", referralCode := "" }

/-- Claim C4 counterexample: the email-based registration variant lets
the concrete submission with phone abc proceed to account creation even
though that phone does not match the required pattern, so the phone
format is not enforced in every registration variant. -/
theorem c4_counterexample :
    handleEmailSignUpValidation c4Form = RegValidation.proceed
    ∧ phoneReTest (stripWhitespace c4Form.phone) = false := by
  decide

/-- Claim C4 as amended: both registration variants reject a
password-confirmation mismatch; the phone-based variant additionally
rejects passwords under six characters and accepts a phone only when,
stripped of whitespace, it matches the phone regex; the email-based
variant checks neither the password length nor the phone format in its
handler. -/
theorem c4_registration_validation (f : RegisterForm) (g : EmailRegisterForm) :
    (f.password ≠ f.confirmPassword →
      ∃ msg, handleSubmitValidation f = RegValidation.rejected msg)
    ∧ (f.password.length < 6 →
      ∃ msg, handleSubmitValidation f = RegValidation.rejected msg)
    ∧ (handleSubmitValidation f = RegValidation.proceed →
      f.password = f.confirmPassword ∧ 6 ≤ f.password.length
        ∧ phoneReTest (stripWhitespace f.phone) = true)
    ∧ (g.password ≠ g.confirmPassword →
      ∃ msg, handleEmailSignUpValidation g = RegValidation.rejected msg) := by
  refine ⟨?_, ?_, ?_, ?_⟩
  · intro hne
    have hb : (f.password != f.confirmPassword) = true := by
      simp [bne_iff_ne, hne]
    unfold handleSubmitValidation
    split_ifs <;> exact ⟨_, rfl⟩
  · intro hlt
    unfold handleSubmitValidation
    split_ifs <;> exact ⟨_, rfl⟩
  · intro hp
    unfold handleSubmitValidation at hp
    split_ifs at hp with h1 h2 h3 h4 h5 h6
    refine ⟨by simpa [bne_iff_ne] using h4, by omega, by simpa using h6⟩
  · intro hne
    have hb : (g.password != g.confirmPassword) = true := by
      simp [bne_iff_ne, hne]
    unfold handleEmailSignUpValidation
    split_ifs <;> exact ⟨_, rfl⟩

/-- Witness for claim C4 at concrete rejected and accepted forms. -/
theorem c4_registration_validation_witness :
    (∃ msg, handleSubmitValidation
      { name := "John Doe", phone := "+12345678901", country := "US", password := "abcdef",
        confirmPassword := "abcdeg", referralCode := "" } = RegValidation.rejected msg)
    ∧ (∃ msg, handleEmailSignUpValidation
      { phone := "+12345678901", email := "a@b.c", password := "abcdef",
        confirmPassword := "abcdeg", country := "US", referralCode := "" } =
        RegValidation.rejected msg) :=
  ⟨(c4_registration_validation
      { name := "John Doe", phone := "+12345678901", country := "US", password := "abcdef",
        confirmPassword := "abcdeg", referralCode := "" }
      { phone := "+12345678901", email := "a@b.c", password := "abcdef",
        confirmPassword := "abcdeg", country := "US", referralCode := "" }).1 (by decide),
   (c4_registration_validation
      { name := "John Doe", phone := "+12345678901", country := "US", password := "abcdef",
        confirmPassword := "abcdeg", referralCode := "" }
      { phone := "+12345678901", email := "a@b.c", password := "abcdef",
        confirmPassword := "abcdeg", country := "US", referralCode := "" }).2.2.2 (by decide)⟩

/-! ## Claims about the card payment path -/

/-- Filtering with a predicate that drops spaces ignores the spaces the
card grouping inserts. -/
theorem cardGroups_filter (p : Char → Bool) (hsp : p ' ' = false) :
    ∀ (fuel : Nat) (cs : List Char), (cardGroups fuel cs).filter p = cs.filter p := by
  intro fuel
  induction fuel with
  | zero => intro cs; rfl
  | succ n ih =>
    intro cs
    by_cases h : cs.length ≤ 4
    · simp [cardGroups, h]
    · simp only [cardGroups, if_neg h]
      rw [List.filter_append, List.filter_cons]
      simp only [hsp, Bool.false_eq_true, if_false]
      rw [ih]
      rw [← List.filter_append, List.take_append_drop]

/-- The card field produced by formatCardNumber holds only digits and
grouping spaces: stripping whitespace from it recovers the first 16
digit characters of the raw input, and its digit count is the length of
that digit prefix. -/
theorem formatCardNumber_digits (v : String) :
    stripWhitespace (formatCardNumber v) = String.mk ((onlyDigits v).data.take 16)
    ∧ digitCount (formatCardNumber v) = ((onlyDigits v).data.take 16).length := by
  have hall : ∀ c ∈ (onlyDigits v).data.take 16, c.isDigit = true := by
    intro c hc
    exact List.of_mem_filter (List.mem_of_mem_take hc)
  constructor
  · show String.mk ((cardGroups _ _).filter _) = _
    rw [cardGroups_filter (fun c => !c.isWhitespace) (by decide)]
    congr 1
    exact List.filter_eq_self.mpr (fun c hc => by
      simp [digit_not_whitespace c (hall c hc)])
  · show ((cardGroups _ _).filter _).length = _
    rw [cardGroups_filter Char.isDigit (by decide)]
    rw [List.filter_eq_self.mpr hall]

/-- Claim C1: with a signed-in user, a card submission whose field
state comes from the card formatter is rejected with an error and
writes nothing whenever the card number does not hold exactly 16
digits, the expiry fails the two-digit slash two-digit pattern, the
card code is not exactly three digits, the cardholder is empty, or the
terms box is unchecked; when all five checks pass, exactly one
transaction record and then exactly one investment record are written,
in that order, and the investment transactionId equals the identifier
of the transaction just created. -/
theorem c1_card_payment (e raw : String) (form : CardForm) (plan : Plan) (st : Store)
    (hfield : form.cardNumber = formatCardNumber raw) :
    (digitCount form.cardNumber ≠ 16 ∨ expiryValid form.expiry = false
       ∨ cvcValid form.cvc = false ∨ form.cardholder = "" ∨ form.confirmTerms = false →
      handleFakeStripePayment (some e) form plan st =
        (PayResult.invalid "Invalid card details or terms not confirmed", st))
    ∧ (digitCount form.cardNumber = 16 → expiryValid form.expiry = true →
       cvcValid form.cvc = true → form.cardholder ≠ "" → form.confirmTerms = true →
      ∃ tx inv,
        (handleFakeStripePayment (some e) form plan st).1 = PayResult.accepted
        ∧ (handleFakeStripePayment (some e) form plan st).2.transactions
            = st.transactions ++ [(st.nextId, tx)]
        ∧ (handleFakeStripePayment (some e) form plan st).2.investments
            = st.investments ++ [(st.nextId + 1, inv)]
        ∧ (handleFakeStripePayment (some e) form plan st).2.log
            = st.log ++ [WriteEntry.txWrite st.nextId tx, WriteEntry.invWrite (st.nextId + 1) inv]
        ∧ inv.transactionId = st.nextId) := by
  have hlen : (stripWhitespace form.cardNumber).length = digitCount form.cardNumber := by
    rw [hfield, (formatCardNumber_digits raw).1, (formatCardNumber_digits raw).2]
    rfl
  constructor
  · intro hbad
    have hc : ((stripWhitespace form.cardNumber).length != 16 || !expiryValid form.expiry
        || !cvcValid form.cvc || form.cardholder.isEmpty || !form.confirmTerms) = true := by
      rcases hbad with h | h | h | h | h
      · have : ((stripWhitespace form.cardNumber).length != 16) = true := by
          rw [hlen]; simpa [bne_iff_ne] using h
        simp [this]
      · simp [h]
      · simp [h]
      · have : form.cardholder.isEmpty = true := by rw [h]; decide
        simp [this]
      · simp [h]
    simp [handleFakeStripePayment, hc]
  · intro h16 hexp hcvc hch hterms
    have hc : ((stripWhitespace form.cardNumber).length != 16 || !expiryValid form.expiry
        || !cvcValid form.cvc || form.cardholder.isEmpty || !form.confirmTerms) = false := by
      have h1 : ((stripWhitespace form.cardNumber).length != 16) = false := by
        rw [hlen, h16]; decide
      simp [h1, hexp, hcvc, hterms, isEmpty_false_of_ne form.cardholder hch]
    refine ⟨{ userEmail := e, planId := plan.id, amount_usd := some plan.deposit_usd,
              amountCrypto := none, currency := none, txHash := none, proofFile := none,
              note := none, txType := "deposit", method := "Stripe", status := "success",
              card := some { last4 := String.mk ((stripWhitespace form.cardNumber).data.drop
                               ((stripWhitespace form.cardNumber).length - 4)),
                             expiry := form.expiry } },
            { userEmail := e, planId := plan.id, transactionId := st.nextId,
              deposit_usd := plan.deposit_usd, payout_per_drop_usd := plan.payout_per_drop_usd,
              drops_count := plan.drops_count, total_return_usd := plan.total_return_usd,
              status := "active" },
            ?_, ?_, ?_, ?_, rfl⟩ <;>
      simp [handleFakeStripePayment, hc, addTransaction, addInvestment]

/-- Concrete card form for the claim C1 witness, with field state
produced by the formatter on a 16-digit raw input. -/
def c1Form : CardForm :=
  { cardNumber := formatCardNumber "1234567890123456", expiry := "12/34", cvc := "123",
    cardholder := "John Doe", confirmTerms := true }

/-- Concrete plan for the claim C1 witness. -/
def c1Plan : Plan :=
  { id := "p1", name := "Starter", deposit_usd := 100, payout_per_drop_usd := 10,
    drops_count := 12, total_return_usd := 120 }

/-- Witness for claim C1 at a concrete fully valid card submission over
the empty store. -/
theorem c1_card_payment_witness :
    ∃ tx inv,
      (handleFakeStripePayment (some "a@b.c") c1Form c1Plan emptyStore).1 = PayResult.accepted
      ∧ (handleFakeStripePayment (some "a@b.c") c1Form c1Plan emptyStore).2.transactions
          = emptyStore.transactions ++ [(emptyStore.nextId, tx)]
      ∧ (handleFakeStripePayment (some "a@b.c") c1Form c1Plan emptyStore).2.investments
          = emptyStore.investments ++ [(emptyStore.nextId + 1, inv)]
      ∧ (handleFakeStripePayment (some "a@b.c") c1Form c1Plan emptyStore).2.log
          = emptyStore.log ++ [WriteEntry.txWrite emptyStore.nextId tx,
                               WriteEntry.invWrite (emptyStore.nextId + 1) inv]
      ∧ inv.transactionId = emptyStore.nextId :=
  (c1_card_payment "a@b.c" "1234567890123456" c1Form c1Plan emptyStore rfl).2
    (by decide) (by decide) (by decide) (by decide) (by decide)
